import Mathlib

/-!
Verification of the slate server's real-time session protocol engine.

The definitions below are a shallow embedding of the Python sources:
  * `src/server/src/infrastructure/auth/service.py` (class `AuthService`),
  * `src/server/src/presentation/websocket/handler.py` (class `WebSocketHandler`),
  * the websocket protocol module (`MessageType`, `create_message`,
    `PROTOCOL_VERSION`).

Modelling conventions:
  * `time.time()` values are modelled as `Nat` parameters (`now`);
  * `secrets.token_hex(16)` is modelled by passing the generated string as an
    explicit argument;
  * Python dicts become association lists (insertion ordered, unique keys in
    every reachable state);
  * Python sets of strings become `List String` used only through membership;
  * sending on a websocket is modelled by returning the list of
    `(connection id, message)` pairs emitted by an operation, in emission
    order; socket sends never fail in the model (the code swallows or handles
    send failures, which no claim below is about);
  * persistence of the token file is a side effect outside the model.
-/

/-! ## Auth service (`service.py`) -/

/-- Temporary QR token with expiration (dataclass `QRToken`). -/
structure QRToken where
  token : String
  expires_at : Nat
  used : Bool
deriving DecidableEq

/-- The mutable state of `AuthService`: the persisted session-token set, the
QR-token map and the "current" QR token. -/
structure AuthState where
  tokens : List String
  qr_tokens : List (String × QRToken)
  current_qr_token : Option String
deriving DecidableEq

/-- `dict.get(k)` on an association list. -/
def alistGet (d : List (String × QRToken)) (k : String) : Option QRToken :=
  (d.find? (fun p => p.1 == k)).map (·.2)

/-- `dict.pop(k, None)` on an association list (keys are unique in every
reachable state, so dropping every binding of `k` is the same operation). -/
def alistErase (d : List (String × QRToken)) (k : String) : List (String × QRToken) :=
  d.filter (fun p => p.1 != k)

/-- `d[k] = v` on an association list.  Reachable states never overwrite an
existing key (tokens are fresh), so position of the binding is unobservable. -/
def alistSet (d : List (String × QRToken)) (k : String) (v : QRToken) :
    List (String × QRToken) :=
  alistErase d k ++ [(k, v)]

/-- `AuthService.DEFAULT_QR_TTL_SECONDS`. -/
def DEFAULT_QR_TTL_SECONDS : Nat := 60

/-- `AuthService.issue_token`: add the freshly generated token (passed here as
the argument `tok`) to the set, persist, return it. -/
def issue_token (s : AuthState) (tok : String) : AuthState × String :=
  ({ s with tokens := tok :: s.tokens }, tok)

/-- `AuthService.validate_token`: `False` for `None`, otherwise exact
membership in the session-token set; no state change (the embedding returns
only a `Bool`, as the method body contains no mutation). -/
def validate_token (s : AuthState) (token : Option String) : Bool :=
  match token with
  | none => false
  | some t => s.tokens.contains t

/-- `AuthService.revoke_token`: returns `true` iff the token existed and was
removed. -/
def revoke_token (s : AuthState) (token : String) : AuthState × Bool :=
  if s.tokens.contains token then
    ({ s with tokens := s.tokens.filter (fun t => t != token) }, true)
  else
    (s, false)

/-- `AuthService.issue_qr_token`: drop the current QR token if one exists
(Python truthiness: `if self._current_qr_token`), record a fresh one (argument
`tok`) expiring at `now + ttl`, and mark it current. -/
def issue_qr_token (s : AuthState) (tok : String) (now : Nat)
    (ttl_seconds : Option Nat) : AuthState × String :=
  let ttl := ttl_seconds.getD DEFAULT_QR_TTL_SECONDS
  let qr :=
    match s.current_qr_token with
    | some cur => if cur = "" then s.qr_tokens else alistErase s.qr_tokens cur
    | none => s.qr_tokens
  let qr := alistSet qr tok { token := tok, expires_at := now + ttl, used := false }
  ({ s with qr_tokens := qr, current_qr_token := some tok }, tok)

/-- The three rejection reasons of the QR exchange, one per early-return
branch of `AuthService.exchange_qr_token` (identified in the source by its
log messages: "token not found", "already used", "expired"). -/
inductive QrFail
  | NotFound
  | AlreadyUsed
  | Expired
deriving DecidableEq

/-- `AuthService.exchange_qr_token`: look the token up; reject unknown, used
or expired tokens (dropping an expired one); otherwise mark it used, remove
it, and chain into `issue_token` (the fresh session token is the argument
`fresh`). -/
def exchange_qr_token (s : AuthState) (qr_token : String) (now : Nat)
    (fresh : String) : AuthState × Except QrFail String :=
  match alistGet s.qr_tokens qr_token with
  | none => (s, Except.error QrFail.NotFound)
  | some qr_data =>
    if qr_data.used then
      (s, Except.error QrFail.AlreadyUsed)
    else if now > qr_data.expires_at then
      ({ s with qr_tokens := alistErase s.qr_tokens qr_token },
       Except.error QrFail.Expired)
    else
      let s := { s with qr_tokens := alistErase s.qr_tokens qr_token }
      let r := issue_token s fresh
      (r.1, Except.ok r.2)

/-- `AuthService.cleanup_expired_qr_tokens`: drop every expired QR token,
return how many were dropped. -/
def cleanup_expired_qr_tokens (s : AuthState) (now : Nat) : AuthState × Nat :=
  let expired := s.qr_tokens.filter (fun p => now > p.2.expires_at)
  ({ s with qr_tokens := s.qr_tokens.filter (fun p => !(now > p.2.expires_at)) },
   expired.length)

/-! ### Association-list lemmas -/

theorem find_erase_self (d : List (String × QRToken)) (k : String) :
    List.find? (fun p => p.1 == k) (alistErase d k) = none := by
  refine List.find?_eq_none.2 ?_
  intro x hx
  have hmem : x ∈ d ∧ ¬ x.1 = k := by simpa [alistErase] using hx
  simp [hmem.2]

theorem alistGet_erase_self (d : List (String × QRToken)) (k : String) :
    alistGet (alistErase d k) k = none := by
  unfold alistGet
  rw [find_erase_self]
  rfl

theorem alistGet_set_self (d : List (String × QRToken)) (k : String) (v : QRToken) :
    alistGet (alistSet d k v) k = some v := by
  unfold alistSet alistGet
  rw [List.find?_append, find_erase_self]
  simp [List.find?]

theorem alistGet_erase_set_self (d : List (String × QRToken)) (k : String) (v : QRToken) :
    alistErase (alistSet d k v) k = alistErase d k := by
  unfold alistSet alistErase
  simp [List.filter_append, List.filter_filter]

theorem alistGet_set_ne (d : List (String × QRToken)) (k k' : String) (v : QRToken)
    (h : k' ≠ k) : alistGet (alistSet d k v) k' = alistGet (alistErase d k) k' := by
  unfold alistSet alistGet
  rw [List.find?_append]
  have hk : ((k, v).1 == k') = false := beq_eq_false_iff_ne.2 (Ne.symm h)
  have hone : List.find? (fun p => p.1 == k') [(k, v)] = none := by
    simp [List.find?, hk]
  cases hfind : List.find? (fun p => p.1 == k') (alistErase d k) <;>
    simp [hfind, hone]

theorem alistGet_erase_ne (d : List (String × QRToken)) (k k' : String)
    (h : k' ≠ k) : alistGet (alistErase d k) k' = alistGet d k' := by
  induction d with
  | nil => rfl
  | cons p d ih =>
    by_cases hp : p.1 = k
    · have h1 : (p.1 != k) = false := by simp [hp]
      have h2 : (p.1 == k') = false := by
        rw [hp]
        exact beq_eq_false_iff_ne.2 (fun e => h e.symm)
      simp only [alistErase, List.filter_cons, h1, alistGet] at ih ⊢
      simpa [List.find?, h2] using ih
    · have h1 : (p.1 != k) = true := by simp [hp]
      by_cases hq : p.1 = k'
      · have h2 : (p.1 == k') = true := by simp [hq]
        simp only [alistErase, List.filter_cons, h1, alistGet]
        simp [List.find?, h2]
      · have h2 : (p.1 == k') = false := by simp [hq]
        simp only [alistErase, List.filter_cons, h1, alistGet] at ih ⊢
        simpa [List.find?, h2] using ih

/-! ### Auth-service claims -/

/-- The freshly constructed `AuthService` state (empty token store file). -/
def authEmpty : AuthState :=
  { tokens := [], qr_tokens := [], current_qr_token := none }

/-- Claim C8: `issue_token` followed by `validate_token` on the issued token
returns `true`; after `revoke_token` the token no longer validates, and
`revoke_token` returns whether the token was present. -/
theorem session_token_lifecycle (s s2 : AuthState) (tok : String) :
    validate_token (issue_token s tok).1 (some tok) = true ∧
    validate_token (revoke_token s2 tok).1 (some tok) = false ∧
    (revoke_token s2 tok).2 = s2.tokens.contains tok := by
  refine ⟨?_, ?_, ?_⟩
  · simp [validate_token, issue_token]
  · unfold revoke_token
    by_cases h : s2.tokens.contains tok
    · rw [if_pos h]
      simp [validate_token, List.mem_filter]
    · rw [if_neg h]
      simpa [validate_token] using h
  · unfold revoke_token
    by_cases h : s2.tokens.contains tok
    · rw [if_pos h]
      exact h.symm
    · rw [if_neg h]
      simp only [Bool.not_eq_true] at h
      exact h.symm

/-- Claim C9 counterexample: `validate_token` does not special-case the empty
string; in a state whose stored set contains `""` it returns `true`, where
the claim demands `false` for empty input. -/
theorem validate_token_empty_not_special :
    validate_token { tokens := [""], qr_tokens := [], current_qr_token := none }
      (some "") = true := rfl

/-- Claim C9 (amended): `validate_token` returns `false` for `none` and, for
any string input (the empty string included), returns exactly the membership
test against the stored token set; it modifies no state (the method body is
mutation-free, which the embedding reflects by returning only a `Bool`). -/
theorem validate_token_is_membership (s : AuthState) (t : String) :
    validate_token s none = false ∧
    validate_token s (some t) = s.tokens.contains t :=
  ⟨rfl, rfl⟩

/-- Claim C3 counterexample: exchanging a fresh QR token succeeds, and the
second exchange of the same token fails with `NotFound`, not `AlreadyUsed`
(the entry is removed from the map by the successful exchange). -/
theorem qr_second_exchange_not_found_cex :
    (exchange_qr_token (issue_qr_token authEmpty "t1" 0 none).1 "t1" 0 "s1").2
      = Except.ok "s1" ∧
    (exchange_qr_token
        (exchange_qr_token (issue_qr_token authEmpty "t1" 0 none).1 "t1" 0 "s1").1
        "t1" 0 "s2").2 = Except.error QrFail.NotFound ∧
    (exchange_qr_token
        (exchange_qr_token (issue_qr_token authEmpty "t1" 0 none).1 "t1" 0 "s1").1
        "t1" 0 "s2").2 ≠ Except.error QrFail.AlreadyUsed := by
  have h2 : (exchange_qr_token
      (exchange_qr_token (issue_qr_token authEmpty "t1" 0 none).1 "t1" 0 "s1").1
      "t1" 0 "s2").2 = Except.error QrFail.NotFound := rfl
  refine ⟨rfl, h2, ?_⟩
  rw [h2]
  simp

/-- Claim C3 (amended): a freshly issued QR token, exchanged before expiry,
yields a session token exactly once; a second exchange of the same token
fails, with reason `NotFound` (the successful exchange removes the entry, so
the `AlreadyUsed` branch is unreachable for it). -/
theorem qr_token_single_use (s : AuthState) (t1 fresh fresh2 : String)
    (now0 now1 now2 : Nat) (ttl : Option Nat)
    (hexp : ¬ now1 > now0 + ttl.getD DEFAULT_QR_TTL_SECONDS) :
    (exchange_qr_token (issue_qr_token s t1 now0 ttl).1 t1 now1 fresh).2
      = Except.ok fresh ∧
    (exchange_qr_token
        (exchange_qr_token (issue_qr_token s t1 now0 ttl).1 t1 now1 fresh).1
        t1 now2 fresh2).2 = Except.error QrFail.NotFound := by
  have hget : alistGet (issue_qr_token s t1 now0 ttl).1.qr_tokens t1
      = some { token := t1
               expires_at := now0 + ttl.getD DEFAULT_QR_TTL_SECONDS
               used := false } := by
    simp only [issue_qr_token]
    exact alistGet_set_self _ _ _
  constructor
  · simp [exchange_qr_token, hget, hexp, issue_token]
  · simp [exchange_qr_token, hget, hexp, issue_token, alistGet_erase_self]

/-- Witness for `qr_token_single_use` at a concrete run. -/
theorem qr_token_single_use_witness :
    (exchange_qr_token (issue_qr_token authEmpty "t1" 0 none).1 "t1" 5 "s1").2
      = Except.ok "s1" ∧
    (exchange_qr_token
        (exchange_qr_token (issue_qr_token authEmpty "t1" 0 none).1 "t1" 5 "s1").1
        "t1" 9 "s2").2 = Except.error QrFail.NotFound :=
  qr_token_single_use authEmpty "t1" "s1" "s2" 0 5 9 none (by decide)

/-- Claim C4: issuing a second QR token while the first is outstanding drops
the first from the exchangeable map, so a subsequent exchange of the first
token fails with `NotFound`. -/
theorem qr_token_supersession (s : AuthState) (t1 t2 fresh : String)
    (now0 now1 now2 : Nat) (ttl1 ttl2 : Option Nat)
    (hne : t1 ≠ t2) (hnz : t1 ≠ "") :
    (exchange_qr_token
        (issue_qr_token (issue_qr_token s t1 now0 ttl1).1 t2 now1 ttl2).1
        t1 now2 fresh).2 = Except.error QrFail.NotFound := by
  have hget : alistGet
      (issue_qr_token (issue_qr_token s t1 now0 ttl1).1 t2 now1 ttl2).1.qr_tokens
      t1 = none := by
    simp only [issue_qr_token]
    rw [alistGet_set_ne _ _ _ _ hne, alistGet_erase_ne _ _ _ hne, if_neg hnz,
      alistGet_erase_set_self, alistGet_erase_self]
  simp [exchange_qr_token, hget]

/-- Witness for `qr_token_supersession` at a concrete run. -/
theorem qr_token_supersession_witness :
    (exchange_qr_token
        (issue_qr_token (issue_qr_token authEmpty "t1" 0 none).1 "t2" 1 none).1
        "t1" 2 "s1").2 = Except.error QrFail.NotFound :=
  qr_token_supersession authEmpty "t1" "t2" "s1" 0 1 2 none none
    (by decide) (by decide)

/-! ## WebSocket protocol (`protocol.py`) -/

/-- `PROTOCOL_VERSION`. -/
def PROTOCOL_VERSION : String := "1.0"

/-- `config.PING_INTERVAL_SECONDS`. -/
def PING_INTERVAL_SECONDS : Nat := 30

/-- `config.PONG_TIMEOUT_SECONDS`. -/
def PONG_TIMEOUT_SECONDS : Nat := 90

/-- The closed set of message kinds (`class MessageType`). -/
inductive MsgType
  | HELLO
  | WELCOME
  | AUTH_REQUIRED
  | AUTH_RESULT
  | BUTTON_PRESSED
  | GET_BUTTONS
  | ACTION_RESULT
  | BUTTONS_LIST
  | ERROR
  | GET_PROFILES
  | PROFILES_LIST
  | SWITCH_PROFILE
  | PROFILE_SWITCHED
  | PING
  | PONG
  | SYSTEM_STATS
deriving DecidableEq

/-- A profile entity as far as the handler observes it: its id, plus the rest
of its serialized form (the handler only reads `id` and forwards `to_dict()`). -/
structure Profile where
  id : String
  name : String
deriving DecidableEq

/-- A button entity as far as the handler observes it (the handler forwards
`to_dict()` opaquely; `id` stands for the whole serialized record). -/
structure Button where
  id : String
deriving DecidableEq

/-- The `result` dict an action execution returns (spec section 6:
`{buttonId, status, message}`); opaque to the handler. -/
structure ActionOutcome where
  buttonId : String
  status : String
  message : String
deriving DecidableEq

/-- Message payloads, one shape per server-to-client message kind. -/
inductive Payload
  | empty
  | versionP (version : String)
  | buttonsP (buttons : List Button)
  | profilesP (profiles : List Profile)
  | profileP (profileId : String)
  | errorP (message : String)
  | actionP (result : ActionOutcome)
  | statsP (cpu ram : Nat) (gpu : Option Nat)
deriving DecidableEq

/-- An outbound message envelope (`create_message` result). -/
structure OutMsg where
  type : MsgType
  payload : Payload
deriving DecidableEq

/-- `create_message(msg_type, payload)`; callers that pass no payload in the
Python pass `Payload.empty` here (`payload or {}`). -/
def create_message (t : MsgType) (p : Payload) : OutMsg :=
  { type := t, payload := p }

/-! ## WebSocket handler (`handler.py`) -/

/-- Python truthiness of an optional string (`if not x` patterns): falsy when
`None` or empty. -/
def strTruthy (s : Option String) : Bool :=
  match s with
  | none => false
  | some t => t != ""

/-- Dataclass `ConnectionInfo` (the `websocket` field is the registry key,
modelled as a `Nat` connection id below). -/
structure ConnectionInfo where
  client_version : Option String := none
  is_authenticated : Bool := false
  active_profile_id : Option String := none
  connected_at : Nat
  last_pong : Nat
deriving DecidableEq

/-- `self._connections`: a dict from socket (here: connection id) to
`ConnectionInfo`, insertion-ordered with unique keys in every reachable
state. -/
abbrev Registry := List (Nat × ConnectionInfo)

/-- `self._connections.get(ws)` / `ws in self._connections`. -/
def connsFind (r : Registry) (cid : Nat) : Option ConnectionInfo :=
  (r.find? (fun p => p.1 == cid)).map (·.2)

/-- Mutation of the `ConnectionInfo` stored under a key (Python mutates the
dataclass in place); a no-op when the key is absent. -/
def connsMap (r : Registry) (cid : Nat) (f : ConnectionInfo → ConnectionInfo) :
    Registry :=
  r.map (fun p => if p.1 = cid then (p.1, f p.2) else p)

/-- `del self._connections[ws]` guarded by membership (idempotent removal). -/
def connsErase (r : Registry) (cid : Nat) : Registry :=
  r.filter (fun p => p.1 != cid)

/-- The external collaborators the handler calls: profile store
(`get_all`, `get_default_profile`, `get_by_id`), button store (`get_all`,
`get_by_id`) and the action-execution use case.  These are out of the
specified core's scope, so they are opaque query functions here. -/
structure Env where
  profiles : List Profile
  default_profile : Option Profile
  get_profile : String → Option Profile
  get_buttons : String → List Button
  get_button : String → String → Option Button
  execute : Button → ActionOutcome

/-- `WebSocketHandler.connect`: register a fresh entry (dict assignment; a
fresh socket is never already a key, the overwrite branch is unreachable). -/
def ws_connect (r : Registry) (cid : Nat) (now : Nat) : Registry :=
  match connsFind r cid with
  | some _ => connsMap r cid (fun _ => { connected_at := now, last_pong := now })
  | none => r ++ [(cid, { connected_at := now, last_pong := now })]

/-- `WebSocketHandler.disconnect` (also the removal half of
`_close_connection`): drop the entry if present. -/
def ws_disconnect (r : Registry) (cid : Nat) : Registry :=
  connsErase r cid

/-- `WebSocketHandler._is_authenticated`. -/
def is_authenticated_conn (r : Registry) (cid : Nat) : Bool :=
  match connsFind r cid with
  | some i => i.is_authenticated
  | none => false

/-- `WebSocketHandler._send_error`. -/
def send_error (cid : Nat) (msg : String) : List (Nat × OutMsg) :=
  [(cid, create_message MsgType.ERROR (Payload.errorP msg))]

/-- `WebSocketHandler._send_buttons_list`: empty list when the connection has
no truthy active profile, otherwise the button store's rows for it. -/
def send_buttons_list (env : Env) (r : Registry) (cid : Nat) :
    List (Nat × OutMsg) :=
  match (connsFind r cid).bind (fun i => i.active_profile_id) with
  | some p =>
    if p = "" then [(cid, create_message MsgType.BUTTONS_LIST (Payload.buttonsP []))]
    else [(cid, create_message MsgType.BUTTONS_LIST (Payload.buttonsP (env.get_buttons p)))]
  | none => [(cid, create_message MsgType.BUTTONS_LIST (Payload.buttonsP []))]

/-- `WebSocketHandler._send_profiles_list`. -/
def send_profiles_list (env : Env) (cid : Nat) : List (Nat × OutMsg) :=
  [(cid, create_message MsgType.PROFILES_LIST (Payload.profilesP env.profiles))]

/-- `WebSocketHandler._handle_hello`: record the client version (guarded by
registry membership in the Python), then, on a valid token, mark the
connection authenticated, default its active profile when unset, and reply
WELCOME, profiles list, buttons list; otherwise reply AUTH_REQUIRED.  On an
unregistered socket with a valid token the Python raises `KeyError` at the
first field assignment (replied as a generic error by `handle_message`) — a
case no claim reaches; the embedding makes those assignments no-ops there. -/
def handle_hello (env : Env) (auth : AuthState) (r : Registry) (cid : Nat)
    (version : Option String) (token : Option String) :
    Registry × List (Nat × OutMsg) :=
  let client_version := version.getD "unknown"
  let r := connsMap r cid (fun i => { i with client_version := some client_version })
  if validate_token auth token then
    let r := connsMap r cid (fun i => { i with is_authenticated := true })
    let r := connsMap r cid (fun i =>
      if strTruthy i.active_profile_id then i
      else
        match env.default_profile with
        | some p => { i with active_profile_id := some p.id }
        | none => i)
    (r, (cid, create_message MsgType.WELCOME (Payload.versionP PROTOCOL_VERSION)) ::
        (send_profiles_list env cid ++ send_buttons_list env r cid))
  else
    (r, [(cid, create_message MsgType.AUTH_REQUIRED Payload.empty)])

/-- `WebSocketHandler._handle_pong`: refresh `last_pong` if the connection is
registered; no reply, no other mutation. -/
def handle_pong (r : Registry) (cid : Nat) (now : Nat) : Registry :=
  connsMap r cid (fun i => { i with last_pong := now })

/-- `WebSocketHandler._handle_button_pressed`. -/
def handle_button_pressed (env : Env) (r : Registry) (cid : Nat)
    (buttonId : Option String) : Registry × List (Nat × OutMsg) :=
  if !(is_authenticated_conn r cid) then
    (r, send_error cid "Not authenticated")
  else
    let profile_id := (connsFind r cid).bind (fun i => i.active_profile_id)
    if !(strTruthy buttonId) then (r, send_error cid "Missing buttonId")
    else if !(strTruthy profile_id) then (r, send_error cid "No active profile")
    else
      match env.get_button (buttonId.getD "") (profile_id.getD "") with
      | none => (r, send_error cid ("Button not found: " ++ buttonId.getD ""))
      | some b =>
        (r, [(cid, create_message MsgType.ACTION_RESULT (Payload.actionP (env.execute b)))])

/-- `WebSocketHandler._handle_get_buttons`. -/
def handle_get_buttons (env : Env) (r : Registry) (cid : Nat) :
    Registry × List (Nat × OutMsg) :=
  if !(is_authenticated_conn r cid) then
    (r, send_error cid "Not authenticated")
  else
    (r, send_buttons_list env r cid)

/-- `WebSocketHandler._handle_get_profiles`. -/
def handle_get_profiles (env : Env) (r : Registry) (cid : Nat) :
    Registry × List (Nat × OutMsg) :=
  if !(is_authenticated_conn r cid) then
    (r, send_error cid "Not authenticated")
  else
    (r, send_profiles_list env cid)

/-- `WebSocketHandler._handle_switch_profile`: gate on authentication, then on
a truthy profile id known to the store; set this connection's active profile
and reply buttons list followed by PROFILE_SWITCHED. -/
def handle_switch_profile (env : Env) (r : Registry) (cid : Nat)
    (profileId : Option String) : Registry × List (Nat × OutMsg) :=
  if !(is_authenticated_conn r cid) then
    (r, send_error cid "Not authenticated")
  else if !(strTruthy profileId) then
    (r, send_error cid "Missing profileId")
  else
    let pid := profileId.getD ""
    match env.get_profile pid with
    | none => (r, send_error cid ("Profile not found: " ++ pid))
    | some _ =>
      let r := connsMap r cid (fun i => { i with active_profile_id := some pid })
      (r, send_buttons_list env r cid ++
          [(cid, create_message MsgType.PROFILE_SWITCHED (Payload.profileP pid))])

/-- A parsed inbound frame: one case per dispatch arm of `handle_message`.
`unknown` is a decoded message whose type matches no arm (logged, ignored);
`malformed` is a frame failing JSON decoding (replied `error "Invalid JSON"`). -/
inductive InMsg
  | hello (version : Option String) (token : Option String)
  | buttonPressed (buttonId : Option String)
  | getButtons
  | getProfiles
  | switchProfile (profileId : Option String)
  | pongMsg
  | unknown (t : String)
  | malformed
deriving DecidableEq

/-- `WebSocketHandler.handle_message`: dispatch on the message type. -/
def handle_message (env : Env) (auth : AuthState) (r : Registry) (cid : Nat)
    (m : InMsg) (now : Nat) : Registry × List (Nat × OutMsg) :=
  match m with
  | InMsg.hello version token => handle_hello env auth r cid version token
  | InMsg.buttonPressed buttonId => handle_button_pressed env r cid buttonId
  | InMsg.getButtons => handle_get_buttons env r cid
  | InMsg.getProfiles => handle_get_profiles env r cid
  | InMsg.switchProfile profileId => handle_switch_profile env r cid profileId
  | InMsg.pongMsg => (handle_pong r cid now, [])
  | InMsg.unknown _ => (r, [])
  | InMsg.malformed => (r, send_error cid "Invalid JSON")

/-- `WebSocketHandler.broadcast_buttons_update`: for each authenticated
connection, resolve the target profile (`profile_id or info.active_profile_id`)
and, when truthy, send it that profile's buttons list.  The Python's
`if not self._connections: return` early exit coincides with the general path
on an empty registry. -/
def broadcast_buttons_update (env : Env) (r : Registry)
    (profile_id : Option String) : Registry × List (Nat × OutMsg) :=
  (r, r.flatMap (fun p =>
    (if !p.2.is_authenticated then []
     else
       let target := if strTruthy profile_id then profile_id else p.2.active_profile_id
       if strTruthy target then
         [create_message MsgType.BUTTONS_LIST
           (Payload.buttonsP (env.get_buttons (target.getD "")))]
       else []).map (fun m => (p.1, m))))

/-- `WebSocketHandler.broadcast_profiles_update`: profiles list to every
authenticated connection. -/
def broadcast_profiles_update (env : Env) (r : Registry) :
    Registry × List (Nat × OutMsg) :=
  (r, r.flatMap (fun p =>
    (if p.2.is_authenticated then
       [create_message MsgType.PROFILES_LIST (Payload.profilesP env.profiles)]
     else []).map (fun m => (p.1, m))))

/-- `WebSocketHandler.broadcast_profile_switch`: no-op when the store does not
know the profile; otherwise set every authenticated connection's active
profile to it and send each PROFILE_SWITCHED followed by that profile's
buttons list.  The Python's empty-registry early exit coincides with the
general path there. -/
def broadcast_profile_switch (env : Env) (r : Registry) (profile_id : String) :
    Registry × List (Nat × OutMsg) :=
  match env.get_profile profile_id with
  | none => (r, [])
  | some _ =>
    (r.map (fun p =>
       (p.1, if p.2.is_authenticated
             then { p.2 with active_profile_id := some profile_id }
             else p.2)),
     r.flatMap (fun p =>
       (if p.2.is_authenticated then
          [create_message MsgType.PROFILE_SWITCHED (Payload.profileP profile_id),
           create_message MsgType.BUTTONS_LIST
             (Payload.buttonsP (env.get_buttons profile_id))]
        else []).map (fun m => (p.1, m))))

/-- One sweep of `WebSocketHandler._cleanup_stale_connections`: evict every
connection whose `last_pong` is older than the pong timeout. -/
def cleanup_stale_connections (r : Registry) (now : Nat) : Registry :=
  r.filter (fun p => !(now - p.2.last_pong > PONG_TIMEOUT_SECONDS))

/-- `WebSocketHandler._send_ping_to_all` (the send-failure branch closes the
failing connection; sends do not fail in the model). -/
def send_ping_to_all (r : Registry) : Registry × List (Nat × OutMsg) :=
  (r, r.map (fun p => (p.1, create_message MsgType.PING Payload.empty)))

/-- `WebSocketHandler._broadcast_stats`: stats to every authenticated
connection. -/
def broadcast_stats (r : Registry) (cpu ram : Nat) (gpu : Option Nat) :
    Registry × List (Nat × OutMsg) :=
  (r, r.flatMap (fun p =>
    (if p.2.is_authenticated then
       [create_message MsgType.SYSTEM_STATS (Payload.statsP cpu ram gpu)]
     else []).map (fun m => (p.1, m))))

/-! ### Registry lemmas -/

/-- Keys are unique, as in a Python dict; holds in every reachable registry. -/
abbrev registryWF (r : Registry) : Prop := (r.map Prod.fst).Nodup

theorem connsFind_connsMap (r : Registry) (c cid : Nat)
    (f : ConnectionInfo → ConnectionInfo) :
    connsFind (connsMap r c f) cid =
      if cid = c then (connsFind r cid).map f else connsFind r cid := by
  induction r with
  | nil => by_cases h : cid = c <;> simp [connsMap, connsFind, h]
  | cons p r ih =>
    by_cases hp : p.1 = c
    · by_cases hc : cid = c
      · have hb : (p.1 == cid) = true := by simp [hp, hc]
        simp [connsMap, connsFind, List.find?, hp, hc, hb]
      · have hb : (p.1 == cid) = false := by
          simp only [beq_eq_false_iff_ne]
          exact fun e => hc (e ▸ hp)
        simp only [connsMap, List.map_cons, if_pos hp, connsFind, List.find?, hb] at ih ⊢
        simpa [connsFind, hc] using ih
    · by_cases hq : p.1 = cid
      · have hb : (p.1 == cid) = true := by simp [hq]
        by_cases hc : cid = c
        · exact absurd (hc ▸ hq) hp
        · simp [connsMap, connsFind, List.find?, hp, hb, hc]
      · have hb : (p.1 == cid) = false := by simp [hq]
        simp only [connsMap, List.map_cons, if_neg hp, connsFind, List.find?, hb] at ih ⊢
        simpa [connsFind] using ih

theorem connsFind_connsMap_of_some (r : Registry) (c cid : Nat)
    (f : ConnectionInfo → ConnectionInfo) (i : ConnectionInfo)
    (h : connsFind r cid = some i) :
    connsFind (connsMap r c f) cid = some (if cid = c then f i else i) := by
  rw [connsFind_connsMap, h]
  by_cases hc : cid = c <;> simp [hc]

theorem connsFind_mem (r : Registry) (cid : Nat) (i : ConnectionInfo)
    (h : connsFind r cid = some i) : (cid, i) ∈ r := by
  unfold connsFind at h
  cases hf : r.find? (fun p => p.1 == cid) with
  | none => rw [hf] at h; cases h
  | some p =>
    rw [hf] at h
    have hp := List.find?_some hf
    have hm : p ∈ r := List.mem_of_find?_eq_some hf
    obtain ⟨a, b⟩ := p
    have ha : a = cid := by simpa using hp
    have hb : b = i := by simpa using h
    rw [← ha, ← hb]
    exact hm

theorem registryWF_unique (r : Registry) (hwf : registryWF r) (cid : Nat)
    (i i' : ConnectionInfo) (h : (cid, i) ∈ r) (h' : (cid, i') ∈ r) : i = i' := by
  have := List.inj_on_of_nodup_map hwf h h' rfl
  exact congrArg Prod.snd this

theorem connsFind_filter_eq (r : Registry) (q : Nat × ConnectionInfo → Bool)
    (cid : Nat) (i i' : ConnectionInfo) (hwf : registryWF r)
    (h : connsFind r cid = some i) (h' : connsFind (r.filter q) cid = some i') :
    i' = i := by
  have hm' : (cid, i') ∈ r.filter q := connsFind_mem _ _ _ h'
  have hmem : (cid, i') ∈ r := (List.mem_filter.1 hm').1
  exact registryWF_unique r hwf cid i' i hmem (connsFind_mem _ _ _ h)

theorem connsFind_append_of_some (r s : Registry) (cid : Nat) (i : ConnectionInfo)
    (h : connsFind r cid = some i) : connsFind (r ++ s) cid = some i := by
  unfold connsFind at h ⊢
  rw [List.find?_append]
  cases hf : r.find? (fun p => p.1 == cid) with
  | none => rw [hf] at h; cases h
  | some p => rw [hf] at h; simp [h]

theorem find_eq_of_connsFind (r : Registry) (cid : Nat) (i : ConnectionInfo)
    (h : connsFind r cid = some i) :
    r.find? (fun p => p.1 == cid) = some (cid, i) := by
  unfold connsFind at h
  cases hf : r.find? (fun p => p.1 == cid) with
  | none => rw [hf] at h; cases h
  | some p =>
    rw [hf] at h
    have hp := List.find?_some hf
    obtain ⟨a, b⟩ := p
    have ha : a = cid := by simpa using hp
    have hb : b = i := by simpa using h
    rw [ha, hb]

theorem connsFind_mapVal (r : Registry) (cid : Nat)
    (f : Nat × ConnectionInfo → ConnectionInfo) :
    connsFind (r.map (fun p => (p.1, f p))) cid =
      (r.find? (fun p => p.1 == cid)).map f := by
  induction r with
  | nil => rfl
  | cons p r ih =>
    by_cases h : p.1 = cid
    · have hb : (p.1 == cid) = true := by simp [h]
      simp [connsFind, List.find?, hb]
    · have hb : (p.1 == cid) = false := by simp [h]
      simp only [List.map_cons, connsFind, List.find?, hb] at ih ⊢
      exact ih

/-- Messages an operation addressed to a given connection, in order. -/
def msgsTo (sends : List (Nat × OutMsg)) (cid : Nat) : List OutMsg :=
  (sends.filter (fun q => q.1 == cid)).map Prod.snd

theorem msgsTo_addressed (a cid : Nat) (l : List OutMsg) :
    msgsTo (l.map (fun m => (a, m))) cid = if a = cid then l else [] := by
  unfold msgsTo
  rw [List.filter_map]
  by_cases h : a = cid
  · simp [h, Function.comp]
  · simp [h, Function.comp]

theorem msgsTo_append (s1 s2 : List (Nat × OutMsg)) (cid : Nat) :
    msgsTo (s1 ++ s2) cid = msgsTo s1 cid ++ msgsTo s2 cid := by
  unfold msgsTo
  simp [List.filter_append]

theorem msgsTo_bind (r : Registry) (g : Nat × ConnectionInfo → List OutMsg)
    (cid : Nat) :
    msgsTo (r.flatMap (fun p => (g p).map (fun m => (p.1, m)))) cid =
      (r.filter (fun p => p.1 == cid)).flatMap g := by
  induction r with
  | nil => rfl
  | cons p r ih =>
    rw [List.flatMap_cons, msgsTo_append, ih, List.filter_cons]
    by_cases h : p.1 = cid
    · have hb : (p.1 == cid) = true := by simp [h]
      rw [msgsTo_addressed]
      simp [h, hb, List.flatMap_cons]
    · have hb : (p.1 == cid) = false := by simp [h]
      rw [msgsTo_addressed]
      simp [h, hb]

theorem filter_key_eq (r : Registry) (cid : Nat) (i : ConnectionInfo)
    (hwf : registryWF r) (h : connsFind r cid = some i) :
    r.filter (fun p => p.1 == cid) = [(cid, i)] := by
  induction r with
  | nil => cases h
  | cons p r ih =>
    obtain ⟨a, b⟩ := p
    by_cases ha : a = cid
    · subst ha
      have hb : b = i := by simpa [connsFind, List.find?] using h
      subst hb
      have hfresh : a ∉ r.map Prod.fst := (List.nodup_cons.1 hwf).1
      rw [List.filter_cons_of_pos (by simp)]
      rw [List.filter_eq_nil.2]
      intro x hx
      simp only [beq_iff_eq]
      intro hc
      exact hfresh (hc ▸ List.mem_map_of_mem Prod.fst hx)
    · have hb : (a == cid) = false := by simp [ha]
      rw [List.filter_cons_of_neg (by simp [hb])]
      exact ih (List.nodup_cons.1 hwf).2 (by simpa [connsFind, List.find?, hb] using h)

/-! ### Concrete fixtures for witnesses and counterexamples -/

/-- Profile "A" (the store's default in the fixtures). -/
def profileA : Profile := { id := "A", name := "Alpha" }

/-- Profile "B". -/
def profileB : Profile := { id := "B", name := "Beta" }

/-- A small concrete store: profiles "A" (default) and "B", one button each. -/
def envW : Env :=
  { profiles := [profileA, profileB]
    default_profile := some profileA
    get_profile := fun s =>
      if s = "A" then some profileA else if s = "B" then some profileB else none
    get_buttons := fun s =>
      if s = "A" then [{ id := "a1" }] else if s = "B" then [{ id := "b1" }] else []
    get_button := fun _bid _pid => none
    execute := fun b => { buttonId := b.id, status := "success", message := "" } }

/-- An authenticated connection on profile "A". -/
def connOnA : ConnectionInfo :=
  { client_version := some "1.0", is_authenticated := true
    active_profile_id := some "A", connected_at := 0, last_pong := 0 }

/-- An authenticated connection on profile "B". -/
def connOnB : ConnectionInfo :=
  { client_version := some "1.0", is_authenticated := true
    active_profile_id := some "B", connected_at := 0, last_pong := 0 }

/-- A freshly registered, unauthenticated connection. -/
def connFresh : ConnectionInfo := { connected_at := 0, last_pong := 0 }

/-- Two authenticated connections, id 0 on profile "A" and id 1 on "B". -/
def rAB : Registry := [(0, connOnA), (1, connOnB)]

/-- A single fresh unauthenticated connection, id 0. -/
def rFresh : Registry := [(0, connFresh)]

/-! ### Handler claims -/

/-- Claim C1: with two authenticated connections on profiles "A" and "B",
`broadcast_buttons_update (some "A")` sends the profile-A buttons list to
BOTH connections — the one on "B" included — because the code computes
`target_profile_id = profile_id or info.active_profile_id`, never comparing
the connection's own active profile against the argument.  This refutes the
claim (and the function's own comment, "broadcast only to clients with that
profile"); the connection on "B" even receives buttons of profile "A". -/
theorem broadcast_buttons_update_ignores_profile_filter :
    (broadcast_buttons_update envW rAB (some "A")).2 =
      [(0, create_message MsgType.BUTTONS_LIST (Payload.buttonsP [{ id := "a1" }])),
       (1, create_message MsgType.BUTTONS_LIST (Payload.buttonsP [{ id := "a1" }]))] := rfl

/-- Claim C2 counterexample: a `pong` on an unauthenticated registered
connection yields NO error reply and DOES mutate the registry entry
(`last_pong` is refreshed), refuting both halves of the claim for the pong
message type. -/
theorem unauth_pong_no_error_and_mutates :
    (handle_message envW authEmpty rFresh 0 InMsg.pongMsg 42).2 = [] ∧
    (handle_message envW authEmpty rFresh 0 InMsg.pongMsg 42).1 =
      [(0, { client_version := none, is_authenticated := false,
             active_profile_id := none, connected_at := 0, last_pong := 42 })] :=
  ⟨rfl, rfl⟩

/-- Claim C2 (amended): on a registered unauthenticated connection, each of
the privileged message types `button-pressed`, `get-buttons`, `get-profiles`
and `switch-profile` is answered with `error "Not authenticated"` and leaves
the registry unchanged.  (`pong` is excluded: it refreshes `last_pong` and
sends nothing; unrecognized types are ignored without a reply.) -/
theorem unauthenticated_gating (env : Env) (auth : AuthState) (r : Registry)
    (cid : Nat) (i : ConnectionInfo) (m : InMsg) (now : Nat)
    (hfind : connsFind r cid = some i) (hna : i.is_authenticated = false)
    (hm : (∃ b, m = InMsg.buttonPressed b) ∨ m = InMsg.getButtons ∨
          m = InMsg.getProfiles ∨ (∃ p, m = InMsg.switchProfile p)) :
    handle_message env auth r cid m now = (r, send_error cid "Not authenticated") := by
  have hauth : is_authenticated_conn r cid = false := by
    simp [is_authenticated_conn, hfind, hna]
  rcases hm with ⟨b, rfl⟩ | rfl | rfl | ⟨p, rfl⟩ <;>
    simp [handle_message, handle_button_pressed, handle_get_buttons,
      handle_get_profiles, handle_switch_profile, hauth]

/-- Witness for `unauthenticated_gating` at a concrete input. -/
theorem unauthenticated_gating_witness :
    handle_message envW authEmpty rFresh 0 InMsg.getButtons 7 =
      (rFresh, send_error 0 "Not authenticated") :=
  unauthenticated_gating envW authEmpty rFresh 0 connFresh InMsg.getButtons 7
    rfl rfl (Or.inr (Or.inl rfl))

/-- Claim C10: when the profile store does not know the id,
`broadcast_profile_switch` is a silent no-op: the registry is returned
untouched and no message is sent. -/
theorem broadcast_profile_switch_unknown_noop (env : Env) (r : Registry)
    (pid : String) (hp : env.get_profile pid = none) :
    broadcast_profile_switch env r pid = (r, []) := by
  simp [broadcast_profile_switch, hp]

/-- Witness for `broadcast_profile_switch_unknown_noop` at a concrete input. -/
theorem broadcast_profile_switch_unknown_noop_witness :
    broadcast_profile_switch envW rAB "Z" = (rAB, []) :=
  broadcast_profile_switch_unknown_noop envW rAB "Z" rfl

/-- Claim C5: when the store knows the profile, `broadcast_profile_switch`
sets every authenticated connection's active profile to it — regardless of
that connection's prior profile — and sends that connection PROFILE_SWITCHED
followed by the profile's buttons list; an unauthenticated connection is left
untouched and receives nothing. -/
theorem broadcast_profile_switch_spec (env : Env) (r : Registry) (pid : String)
    (pr : Profile) (cid : Nat) (i : ConnectionInfo)
    (hp : env.get_profile pid = some pr) (hwf : registryWF r)
    (hfind : connsFind r cid = some i) :
    (i.is_authenticated = true →
      connsFind (broadcast_profile_switch env r pid).1 cid
          = some { i with active_profile_id := some pid } ∧
      msgsTo (broadcast_profile_switch env r pid).2 cid
          = [create_message MsgType.PROFILE_SWITCHED (Payload.profileP pid),
             create_message MsgType.BUTTONS_LIST
               (Payload.buttonsP (env.get_buttons pid))]) ∧
    (i.is_authenticated = false →
      connsFind (broadcast_profile_switch env r pid).1 cid = some i ∧
      msgsTo (broadcast_profile_switch env r pid).2 cid = []) := by
  have h1 : (broadcast_profile_switch env r pid).1 =
      r.map (fun p =>
        (p.1, if p.2.is_authenticated
              then { p.2 with active_profile_id := some pid }
              else p.2)) := by
    simp [broadcast_profile_switch, hp]
  have h2 : (broadcast_profile_switch env r pid).2 =
      r.flatMap (fun p =>
        (if p.2.is_authenticated then
           [create_message MsgType.PROFILE_SWITCHED (Payload.profileP pid),
            create_message MsgType.BUTTONS_LIST
              (Payload.buttonsP (env.get_buttons pid))]
         else []).map (fun m => (p.1, m))) := by
    simp [broadcast_profile_switch, hp]
  rw [h1, h2]
  have hfd := find_eq_of_connsFind r cid i hfind
  constructor
  · intro hauth
    constructor
    · rw [connsFind_mapVal, hfd]
      simp [hauth]
    · rw [msgsTo_bind, filter_key_eq r cid i hwf hfind]
      simp [hauth]
  · intro hna
    constructor
    · rw [connsFind_mapVal, hfd]
      simp [hna]
    · rw [msgsTo_bind, filter_key_eq r cid i hwf hfind]
      simp [hna]

/-- Witness for `broadcast_profile_switch_spec`: the connection that was on
profile "B" is rebound to "A" and receives the switch and buttons messages. -/
theorem broadcast_profile_switch_spec_witness :
    connsFind (broadcast_profile_switch envW rAB "A").1 1
        = some { connOnB with active_profile_id := some "A" } ∧
    msgsTo (broadcast_profile_switch envW rAB "A").2 1
        = [create_message MsgType.PROFILE_SWITCHED (Payload.profileP "A"),
           create_message MsgType.BUTTONS_LIST
             (Payload.buttonsP (envW.get_buttons "A"))] :=
  (broadcast_profile_switch_spec envW rAB "A" profileA 1 connOnB rfl
    (by decide) rfl).1 rfl

/-- The active profile bound by a successful handshake: the prior value when
truthy, else the store's default profile's id (unchanged when the store has
no default). -/
def hello_active (env : Env) (i : ConnectionInfo) : Option String :=
  if strTruthy i.active_profile_id then i.active_profile_id
  else
    match env.default_profile with
    | some p => some p.id
    | none => i.active_profile_id

/-- The buttons payload a successful handshake replies with (the buttons of
the bound profile; empty when none was bound). -/
def hello_buttons (env : Env) (i : ConnectionInfo) : List Button :=
  match hello_active env i with
  | some p => if p = "" then [] else env.get_buttons p
  | none => []

/-- Claim C6: a handshake-request with a token that `validate_token` accepts
marks the connection authenticated, binds its active profile to its prior
value if set and otherwise to the store's default profile, and replies with
exactly WELCOME (handshake-response), then the profiles list, then the
buttons list, in that order. -/
theorem handshake_valid_token (env : Env) (auth : AuthState) (r : Registry)
    (cid : Nat) (i : ConnectionInfo) (version token : Option String) (now : Nat)
    (hfind : connsFind r cid = some i) (hna : i.is_authenticated = false)
    (hv : validate_token auth token = true) :
    connsFind (handle_message env auth r cid (InMsg.hello version token) now).1 cid
        = some { i with client_version := some (version.getD "unknown"),
                        is_authenticated := true,
                        active_profile_id := hello_active env i } ∧
    (handle_message env auth r cid (InMsg.hello version token) now).2 =
      [(cid, create_message MsgType.WELCOME (Payload.versionP PROTOCOL_VERSION)),
       (cid, create_message MsgType.PROFILES_LIST (Payload.profilesP env.profiles)),
       (cid, create_message MsgType.BUTTONS_LIST
          (Payload.buttonsP (hello_buttons env i)))] := by
  have hred : handle_message env auth r cid (InMsg.hello version token) now =
      (connsMap (connsMap (connsMap r cid
          (fun j => { j with client_version := some (version.getD "unknown") })) cid
          (fun j => { j with is_authenticated := true })) cid
          (fun j =>
            if strTruthy j.active_profile_id then j
            else
              match env.default_profile with
              | some p => { j with active_profile_id := some p.id }
              | none => j),
       (cid, create_message MsgType.WELCOME (Payload.versionP PROTOCOL_VERSION)) ::
         (send_profiles_list env cid ++
          send_buttons_list env
            (connsMap (connsMap (connsMap r cid
              (fun j => { j with client_version := some (version.getD "unknown") })) cid
              (fun j => { j with is_authenticated := true })) cid
              (fun j =>
                if strTruthy j.active_profile_id then j
                else
                  match env.default_profile with
                  | some p => { j with active_profile_id := some p.id }
                  | none => j)) cid)) := by
    simp [handle_message, handle_hello, hv]
  rw [hred]
  have hA := connsFind_connsMap_of_some r cid cid
      (fun j => { j with client_version := some (version.getD "unknown") }) i hfind
  rw [if_pos rfl] at hA
  have hB := connsFind_connsMap_of_some _ cid cid
      (fun j => { j with is_authenticated := true }) _ hA
  rw [if_pos rfl] at hB
  have hC := connsFind_connsMap_of_some _ cid cid
      (fun j =>
        if strTruthy j.active_profile_id then j
        else
          match env.default_profile with
          | some p => { j with active_profile_id := some p.id }
          | none => j) _ hB
  rw [if_pos rfl] at hC
  obtain ⟨cv0, au0, ap0, ca0, lp0⟩ := i
  constructor
  · rw [hC]
    cases ap0 with
    | none =>
      cases hdef : env.default_profile <;> simp [hello_active, strTruthy, hdef]
    | some a =>
      by_cases ha : a = ""
      · cases hdef : env.default_profile <;> simp [hello_active, strTruthy, ha, hdef]
      · simp [hello_active, strTruthy, ha]
  · have hsend : send_buttons_list env (connsMap (connsMap (connsMap r cid
        (fun j => { j with client_version := some (version.getD "unknown") })) cid
        (fun j => { j with is_authenticated := true })) cid
        (fun j =>
          if strTruthy j.active_profile_id then j
          else
            match env.default_profile with
            | some p => { j with active_profile_id := some p.id }
            | none => j)) cid =
        [(cid, create_message MsgType.BUTTONS_LIST
           (Payload.buttonsP (hello_buttons env
             { client_version := cv0, is_authenticated := au0,
               active_profile_id := ap0, connected_at := ca0, last_pong := lp0 })))] := by
      unfold send_buttons_list
      rw [hC]
      cases ap0 with
      | none =>
        cases hdef : env.default_profile with
        | none => simp [hello_buttons, hello_active, strTruthy, hdef]
        | some p =>
          by_cases hpz : p.id = "" <;>
            simp [hello_buttons, hello_active, strTruthy, hdef, hpz]
      | some a =>
        by_cases ha : a = ""
        · cases hdef : env.default_profile with
          | none => simp [hello_buttons, hello_active, strTruthy, hdef, ha]
          | some p =>
            by_cases hpz : p.id = "" <;>
              simp [hello_buttons, hello_active, strTruthy, hdef, ha, hpz]
        · simp [hello_buttons, hello_active, strTruthy, ha]
    rw [hsend]
    simp [send_profiles_list]

/-- An auth-service state holding the session token `"tok"`. -/
def authTok : AuthState :=
  { tokens := ["tok"], qr_tokens := [], current_qr_token := none }

/-- Witness for `handshake_valid_token`: a fresh connection handshaking with
the valid token is authenticated, bound to the default profile, and receives
the three replies in order. -/
theorem handshake_valid_token_witness :
    connsFind (handle_message envW authTok rFresh 0
        (InMsg.hello (some "1.0") (some "tok")) 3).1 0
      = some { client_version := some "1.0", is_authenticated := true,
               active_profile_id := hello_active envW connFresh,
               connected_at := 0, last_pong := 0 } ∧
    (handle_message envW authTok rFresh 0
        (InMsg.hello (some "1.0") (some "tok")) 3).2 =
      [(0, create_message MsgType.WELCOME (Payload.versionP PROTOCOL_VERSION)),
       (0, create_message MsgType.PROFILES_LIST (Payload.profilesP envW.profiles)),
       (0, create_message MsgType.BUTTONS_LIST
          (Payload.buttonsP (hello_buttons envW connFresh)))] :=
  handshake_valid_token envW authTok rFresh 0 connFresh (some "1.0") (some "tok") 3
    rfl rfl rfl

/-! ### Authentication monotonicity (C7) -/

theorem connsMap_keys (r : Registry) (c : Nat) (f : ConnectionInfo → ConnectionInfo) :
    (connsMap r c f).map Prod.fst = r.map Prod.fst := by
  unfold connsMap
  rw [List.map_map]
  refine List.map_congr_left ?_
  intro p _
  by_cases h : p.1 = c <;> simp [h]

theorem registryWF_connsMap (r : Registry) (c : Nat)
    (f : ConnectionInfo → ConnectionInfo) (hwf : registryWF r) :
    registryWF (connsMap r c f) := by
  unfold registryWF
  rw [connsMap_keys]
  exact hwf

theorem mapVal_keys (r : Registry) (f : Nat × ConnectionInfo → ConnectionInfo) :
    (r.map (fun p => (p.1, f p))).map Prod.fst = r.map Prod.fst := by
  rw [List.map_map]
  exact List.map_congr_left (fun a _ => rfl)

theorem registryWF_filter (r : Registry) (q : Nat × ConnectionInfo → Bool)
    (hwf : registryWF r) : registryWF (r.filter q) :=
  hwf.sublist ((r.filter_sublist).map Prod.fst)

theorem not_mem_keys_of_connsFind_none (r : Registry) (c : Nat)
    (h : connsFind r c = none) : c ∉ r.map Prod.fst := by
  intro hmem
  obtain ⟨p, hp, hfst⟩ := List.mem_map.1 hmem
  cases hf : r.find? (fun p => p.1 == c) with
  | some q =>
    unfold connsFind at h
    rw [hf] at h
    cases h
  | none =>
    have := List.find?_eq_none.1 hf p hp
    simp [hfst] at this

theorem registryWF_append_fresh (r : Registry) (c : Nat) (i0 : ConnectionInfo)
    (hwf : registryWF r) (hfresh : connsFind r c = none) :
    registryWF (r ++ [(c, i0)]) := by
  have hmem := not_mem_keys_of_connsFind_none r c hfresh
  unfold registryWF
  rw [List.map_append, List.nodup_append]
  refine ⟨hwf, List.nodup_singleton c, ?_⟩
  intro a ha hb
  simp only [List.map_cons, List.map_nil, List.mem_singleton] at hb
  exact hmem (hb ▸ ha)

theorem connsMap_auth_mono (r : Registry) (c cid : Nat)
    (f : ConnectionInfo → ConnectionInfo)
    (hf : ∀ j, j.is_authenticated = true → (f j).is_authenticated = true)
    (i i' : ConnectionInfo) (h : connsFind r cid = some i)
    (h' : connsFind (connsMap r c f) cid = some i')
    (hauth : i.is_authenticated = true) : i'.is_authenticated = true := by
  rw [connsFind_connsMap_of_some r c cid f i h] at h'
  by_cases hc : cid = c
  · rw [if_pos hc] at h'
    cases h'
    exact hf i hauth
  · rw [if_neg hc] at h'
    cases h'
    exact hauth

theorem handle_hello_fst_cases (env : Env) (auth : AuthState) (r : Registry)
    (c : Nat) (v t : Option String) :
    (handle_hello env auth r c v t).1 =
      connsMap (connsMap (connsMap r c
        (fun j => { j with client_version := some (v.getD "unknown") })) c
        (fun j => { j with is_authenticated := true })) c
        (fun j =>
          if strTruthy j.active_profile_id then j
          else
            match env.default_profile with
            | some p => { j with active_profile_id := some p.id }
            | none => j) ∨
    (handle_hello env auth r c v t).1 =
      connsMap r c (fun j => { j with client_version := some (v.getD "unknown") }) := by
  by_cases hv : validate_token auth t
  · left
    simp [handle_hello, hv]
  · right
    simp [handle_hello, hv]

theorem handle_button_pressed_fst (env : Env) (r : Registry) (c : Nat)
    (b : Option String) : (handle_button_pressed env r c b).1 = r := by
  simp only [handle_button_pressed]
  repeat' split
  all_goals rfl

theorem handle_get_buttons_fst (env : Env) (r : Registry) (c : Nat) :
    (handle_get_buttons env r c).1 = r := by
  unfold handle_get_buttons
  split <;> rfl

theorem handle_get_profiles_fst (env : Env) (r : Registry) (c : Nat) :
    (handle_get_profiles env r c).1 = r := by
  unfold handle_get_profiles
  split <;> rfl

theorem handle_switch_profile_fst_cases (env : Env) (r : Registry) (c : Nat)
    (p : Option String) :
    (handle_switch_profile env r c p).1 = r ∨
    (handle_switch_profile env r c p).1 =
      connsMap r c (fun j => { j with active_profile_id := some (p.getD "") }) := by
  simp only [handle_switch_profile]
  split
  · left
    rfl
  · split
    · left
      rfl
    · split
      · left
        rfl
      · right
        rfl

theorem broadcast_profile_switch_fst_cases (env : Env) (r : Registry) (pid : String) :
    (broadcast_profile_switch env r pid).1 = r ∨
    (broadcast_profile_switch env r pid).1 =
      r.map (fun p =>
        (p.1, if p.2.is_authenticated
              then { p.2 with active_profile_id := some pid }
              else p.2)) := by
  unfold broadcast_profile_switch
  cases env.get_profile pid with
  | none => left; rfl
  | some pr => right; rfl

/-- One registry-touching operation of the handler: socket accept, client
disconnect, inbound-message dispatch, the three broadcast entry points, the
ping fan-out, the stats fan-out, and the liveness sweep.  `connectStep`
carries the freshness of the accepted socket: a live socket object is a dict
key at most once. -/
inductive HandlerStep (env : Env) (auth : AuthState) : Registry → Registry → Prop
  | connectStep (r : Registry) (cid now : Nat) (hfresh : connsFind r cid = none) :
      HandlerStep env auth r (ws_connect r cid now)
  | disconnectStep (r : Registry) (cid : Nat) :
      HandlerStep env auth r (ws_disconnect r cid)
  | messageStep (r : Registry) (cid : Nat) (m : InMsg) (now : Nat) :
      HandlerStep env auth r (handle_message env auth r cid m now).1
  | buttonsUpdateStep (r : Registry) (pid : Option String) :
      HandlerStep env auth r (broadcast_buttons_update env r pid).1
  | profilesUpdateStep (r : Registry) :
      HandlerStep env auth r (broadcast_profiles_update env r).1
  | profileSwitchStep (r : Registry) (pid : String) :
      HandlerStep env auth r (broadcast_profile_switch env r pid).1
  | pingStep (r : Registry) :
      HandlerStep env auth r (send_ping_to_all r).1
  | statsStep (r : Registry) (cpu ram : Nat) (gpu : Option Nat) :
      HandlerStep env auth r (broadcast_stats r cpu ram gpu).1
  | cleanupStep (r : Registry) (now : Nat) :
      HandlerStep env auth r (cleanup_stale_connections r now)

/-- Claim C7: across every operation the handler can perform on the registry,
a registered connection whose `is_authenticated` flag is `true` still has it
`true` if it is still registered afterwards — no operation resets the flag;
only removal (disconnect or eviction) leaves the authenticated state.  The
conclusion also carries the key-uniqueness invariant forward, so the
preservation composes over any reachable sequence of operations. -/
theorem auth_never_revoked (env : Env) (auth : AuthState) (r r' : Registry)
    (hstep : HandlerStep env auth r r') (hwf : registryWF r)
    (cid : Nat) (i i' : ConnectionInfo)
    (h : connsFind r cid = some i) (h' : connsFind r' cid = some i')
    (hauth : i.is_authenticated = true) :
    i'.is_authenticated = true ∧ registryWF r' := by
  cases hstep with
  | connectStep c2 now hfresh =>
    refine ⟨?_, ?_⟩
    · simp only [ws_connect, hfresh] at h'
      rw [connsFind_append_of_some r _ cid i h] at h'
      cases h'
      exact hauth
    · simp only [ws_connect, hfresh]
      exact registryWF_append_fresh r c2 _ hwf hfresh
  | disconnectStep c2 =>
    unfold ws_disconnect connsErase at h' ⊢
    refine ⟨?_, registryWF_filter r _ hwf⟩
    rw [connsFind_filter_eq r _ cid i i' hwf h h']
    exact hauth
  | cleanupStep now =>
    unfold cleanup_stale_connections at h' ⊢
    refine ⟨?_, registryWF_filter r _ hwf⟩
    rw [connsFind_filter_eq r _ cid i i' hwf h h']
    exact hauth
  | buttonsUpdateStep pid =>
    have h2 : connsFind r cid = some i' := h'
    rw [h] at h2
    cases h2
    exact ⟨hauth, hwf⟩
  | profilesUpdateStep =>
    have h2 : connsFind r cid = some i' := h'
    rw [h] at h2
    cases h2
    exact ⟨hauth, hwf⟩
  | pingStep =>
    have h2 : connsFind r cid = some i' := h'
    rw [h] at h2
    cases h2
    exact ⟨hauth, hwf⟩
  | statsStep cpu ram gpu =>
    have h2 : connsFind r cid = some i' := h'
    rw [h] at h2
    cases h2
    exact ⟨hauth, hwf⟩
  | profileSwitchStep pid =>
    rcases broadcast_profile_switch_fst_cases env r pid with heq | heq
    · rw [heq] at h'
      rw [h] at h'
      cases h'
      refine ⟨hauth, ?_⟩
      rw [heq]
      exact hwf
    · rw [heq] at h'
      rw [connsFind_mapVal, find_eq_of_connsFind r cid i h] at h'
      cases h'
      constructor
      · simp [hauth]
      · rw [heq]
        unfold registryWF
        rw [mapVal_keys]
        exact hwf
  | messageStep c2 m now =>
    cases m with
    | hello v t =>
      simp only [handle_message] at h' ⊢
      rcases handle_hello_fst_cases env auth r c2 v t with heq | heq
      · rw [heq] at h'
        have h1 := connsFind_connsMap_of_some r c2 cid
            (fun j => { j with client_version := some (v.getD "unknown") }) i h
        have h2 := connsFind_connsMap_of_some _ c2 cid
            (fun j => { j with is_authenticated := true }) _ h1
        have h3 := connsFind_connsMap_of_some _ c2 cid
            (fun j =>
              if strTruthy j.active_profile_id then j
              else
                match env.default_profile with
                | some p => { j with active_profile_id := some p.id }
                | none => j) _ h2
        rw [h3] at h'
        cases h'
        constructor
        · by_cases hc : cid = c2
          · obtain ⟨cv0, au0, ap0, ca0, lp0⟩ := i
            cases ap0 with
            | none =>
              cases hdef : env.default_profile <;>
                simp [hc, strTruthy, hdef]
            | some a =>
              by_cases ha : a = "" <;>
                cases hdef : env.default_profile <;>
                  simp [hc, strTruthy, ha, hdef]
          · simp [hc, hauth]
        · rw [heq]
          exact registryWF_connsMap _ _ _
            (registryWF_connsMap _ _ _ (registryWF_connsMap _ _ _ hwf))
      · rw [heq] at h'
        refine ⟨connsMap_auth_mono r c2 cid
          (fun j => { j with client_version := some (v.getD "unknown") })
          (fun j hj => hj) i i' h h' hauth, ?_⟩
        rw [heq]
        exact registryWF_connsMap _ _ _ hwf
    | buttonPressed b =>
      simp only [handle_message] at h'
      rw [handle_button_pressed_fst] at h'
      rw [h] at h'
      cases h'
      exact ⟨hauth, by simpa [handle_message, handle_button_pressed_fst] using hwf⟩
    | getButtons =>
      simp only [handle_message] at h'
      rw [handle_get_buttons_fst] at h'
      rw [h] at h'
      cases h'
      exact ⟨hauth, by simpa [handle_message, handle_get_buttons_fst] using hwf⟩
    | getProfiles =>
      simp only [handle_message] at h'
      rw [handle_get_profiles_fst] at h'
      rw [h] at h'
      cases h'
      exact ⟨hauth, by simpa [handle_message, handle_get_profiles_fst] using hwf⟩
    | switchProfile p =>
      simp only [handle_message] at h' ⊢
      rcases handle_switch_profile_fst_cases env r c2 p with heq | heq
      · rw [heq] at h'
        rw [h] at h'
        cases h'
        refine ⟨hauth, ?_⟩
        rw [heq]
        exact hwf
      · rw [heq] at h'
        refine ⟨connsMap_auth_mono r c2 cid
          (fun j => { j with active_profile_id := some (p.getD "") })
          (fun j hj => hj) i i' h h' hauth, ?_⟩
        rw [heq]
        exact registryWF_connsMap _ _ _ hwf
    | pongMsg =>
      simp only [handle_message, handle_pong] at h' ⊢
      refine ⟨?_, registryWF_connsMap _ _ _ hwf⟩
      exact connsMap_auth_mono r c2 cid (fun j => { j with last_pong := now })
        (fun j hj => hj) i i' h h' hauth
    | unknown t =>
      simp only [handle_message] at h' ⊢
      rw [h] at h'
      cases h'
      exact ⟨hauth, hwf⟩
    | malformed =>
      simp only [handle_message] at h' ⊢
      rw [h] at h'
      cases h'
      exact ⟨hauth, hwf⟩

/-- Witness for `auth_never_revoked`: a pong step on an authenticated
connection leaves it authenticated. -/
theorem auth_never_revoked_witness :
    ({ client_version := some "1.0", is_authenticated := true,
       active_profile_id := some "A", connected_at := 0, last_pong := 5 } :
      ConnectionInfo).is_authenticated = true ∧
    registryWF (handle_message envW authEmpty rAB 0 InMsg.pongMsg 5).1 :=
  auth_never_revoked envW authEmpty rAB
    (handle_message envW authEmpty rAB 0 InMsg.pongMsg 5).1
    (@HandlerStep.messageStep envW authEmpty rAB 0 InMsg.pongMsg 5)
    (by decide) 0 connOnA
    { client_version := some "1.0", is_authenticated := true,
      active_profile_id := some "A", connected_at := 0, last_pong := 5 }
    rfl rfl rfl
